import Mathlib

/-!
Verification development for the server-side WebSocket opening handshake
(`src/server/request.rs`) and the `Origin` single-value header
(`src/header/origin.rs`) of the rust-websocket fragment.

The Rust source is shallowly embedded: the `Request` lifecycle functions
(`read`, `validate`, `accept`, `fail`, `into_inner`) and the `Origin`
header functions (`parse_header`, `fmt_header`) are translated directly
from the source.  Types supplied by the external HTTP layer (hyper,
unicase) that the source consumes — `HttpVersion`, `Method`, the typed
header collection, `Upgrade` protocol tokens, `Connection` options with
case-insensitive token comparison, the `Response` constructor, and the
one-value raw-header parser — are modelled from the specification of the
contract the source relies on.
-/

/-- HTTP version of a request, as in the external hyper `HttpVersion`
enumeration consumed by `request.rs` (only presence of the 0.9 / 1.0 /
1.1 / 2.0 distinctions matters to the handshake). -/
inductive HttpVersion where
  | http09
  | http10
  | http11
  | http20
deriving DecidableEq, Repr

/-- HTTP request method, as in the external hyper `Method` enumeration
consumed by `Request::read`. -/
inductive Method where
  | options
  | get
  | head
  | post
  | put
  | delete
  | trace
  | connect
  | patch
  | extensionMethod (s : String)
deriving DecidableEq, Repr

/-- Target of the request line.  The handshake treats it opaquely, so it
is carried as a plain string. -/
abbrev RequestUri := String

/-- Modelled from the spec: the `unicase::UniCase` wrapper (external, not
under src/) whose equality compares strings ASCII-case-insensitively. -/
structure UniCase where
  val : String
deriving DecidableEq, Repr

/-- Modelled from the spec: case-insensitive equality of `UniCase`
values, the comparison the `Connection` token check relies on; the two
strings are equal after lowering the case of every character. -/
def UniCase.eqv (a b : UniCase) : Bool :=
  a.val.data.map Char.toLower == b.val.data.map Char.toLower

/-- Protocol token of an `Upgrade` header, as in the external hyper
`Protocol` enumeration: the distinguished "websocket" token or an
extension token compared verbatim. -/
inductive Protocol where
  | webSocket
  | protocolExt (s : String)
deriving DecidableEq, BEq, Repr

/-- Token of a `Connection` header, as in the external hyper
`ConnectionOption` enumeration; header tokens are wrapped in `UniCase`
so they compare case-insensitively. -/
inductive ConnectionOption where
  | keepAlive
  | close
  | connectionHeader (token : UniCase)
deriving DecidableEq, Repr

/-- Equality of `Connection` tokens as hyper derives it: structural on
the constant tokens, case-insensitive (via [UniCase.eqv]) on named
tokens. -/
def ConnectionOption.eqv : ConnectionOption → ConnectionOption → Bool
  | .keepAlive, .keepAlive => true
  | .close, .close => true
  | .connectionHeader a, .connectionHeader b => a.eqv b
  | _, _ => false

/-- Membership in a `Connection` token list (Rust `Vec::contains` with
the `ConnectionOption` equality above). -/
def connContains (l : List ConnectionOption) (x : ConnectionOption) : Bool :=
  l.any (fun y => ConnectionOption.eqv y x)

/-- The `Sec-WebSocket-Version` header value; `validate` only compares
it against protocol version 13. -/
inductive WebSocketVersion where
  | webSocket13
  | unknown (s : String)
deriving DecidableEq, Repr

/-- The `Sec-WebSocket-Key` header value; `validate` only tests its
presence, so the payload is carried opaquely. -/
structure WebSocketKey where
  val : String
deriving DecidableEq, Repr

/-- Represents an Origin header (src/header/origin.rs): wraps exactly
one string value. -/
structure Origin where
  val : String
deriving DecidableEq, Repr

/-- Modelled from the spec: the typed header collection (hyper
`Headers`, external, not under src/) holds zero-or-one typed value for
each header identity relevant to the handshake; `get` for each type is
a pure lookup of the corresponding optional field. -/
structure Headers where
  upgrade : Option (List Protocol) := none
  connection : Option (List ConnectionOption) := none
  wsVersion : Option WebSocketVersion := none
  wsKey : Option WebSocketKey := none
  wsProtocol : Option (List String) := none
  wsExtensions : Option (List String) := none
  origin : Option Origin := none
deriving DecidableEq, Repr

/-- The empty header collection (`Headers::new()`). -/
def Headers.new : Headers := {}

/-- HTTP status code (hyper `StatusCode`, external); only `BadRequest`
is decided by the handshake core, the other values stand for the rest
of the enumeration. -/
inductive StatusCode where
  | switchingProtocols
  | okStatus
  | badRequest
  | notFound
  | internalServerError
deriving DecidableEq, Repr

/-- Modelled from the spec (section 7): two error shapes suffice — an
I/O / malformed-input class surfaced from the reading step, and a
single `RequestError` kind carrying a human-readable reason used for
every handshake-rule violation. -/
inductive WebSocketError where
  | requestError (reason : String)
  | ioError (message : String)
deriving DecidableEq, Repr

/-- Result channel of the library (`WebSocketResult<T>`). -/
abbrev WebSocketResult (α : Type) := Except WebSocketError α

/-- Represents a server-side (incoming) request (src/server/request.rs):
target URI, HTTP version, header collection, and exclusive ownership of
the read and write halves of the connection. -/
structure Request (R W : Type) where
  url : RequestUri
  version : HttpVersion
  headers : Headers
  reader : R
  writer : W
deriving DecidableEq, Repr

/-- Shortcut to obtain the WebSocketKey value (`Request::key`). -/
def Request.key (req : Request R W) : Option WebSocketKey :=
  req.headers.wsKey

/-- Shortcut to obtain the WebSocketVersion value (`Request::version`;
renamed because the Lean structure already uses `version` for the HTTP
version field). -/
def Request.wsVersion (req : Request R W) : Option WebSocketVersion :=
  req.headers.wsVersion

/-- Shortcut to obtain the WebSocketProtocol value
(`Request::protocol`). -/
def Request.protocol (req : Request R W) : Option (List String) :=
  req.headers.wsProtocol

/-- Shortcut to obtain the WebSocketExtensions value
(`Request::extensions`). -/
def Request.extensions (req : Request R W) : Option (List String) :=
  req.headers.wsExtensions

/-- Shortcut to obtain the Origin value (`Request::origin`). -/
def Request.origin (req : Request R W) : Option Origin :=
  req.headers.origin

/-- Return the inner Reader and Writer (`Request::into_inner`). -/
def Request.into_inner (req : Request R W) : R × W :=
  (req.reader, req.writer)

/-- Reads an inbound request (`Request::read`).  The external parsing
primitives (`read_request_line`, `Headers::from_raw`) are modelled by
their already-computed results: `line` is the outcome of reading the
request line and `headersResult` the outcome of parsing the header
block.  The method gate sits between the two, exactly as in the
source. -/
def Request.read (line : WebSocketResult (Method × RequestUri × HttpVersion))
    (headersResult : WebSocketResult Headers) (reader : R) (writer : W) :
    WebSocketResult (Request R W) :=
  match line with
  | .error e => .error e
  | .ok (method, uri, version) =>
    match method with
    | .get =>
      match headersResult with
      | .error e => .error e
      | .ok headers =>
        .ok { url := uri, version := version, headers := headers,
              reader := reader, writer := writer }
    | _ => .error (.requestError "Request method must be GET")

/-- Check if this constitutes a valid request (`Request::validate`),
translated check by check from the source: HTTP version, WebSocket
version header, key presence, `Upgrade` token, `Connection` token, in
that order, with an early error return at the first failure. -/
def Request.validate (req : Request R W) : WebSocketResult Unit :=
  if req.version = HttpVersion.http09 ∨ req.version = HttpVersion.http10 then
    .error (.requestError "Unsupported request HTTP version")
  else if req.wsVersion ≠ some WebSocketVersion.webSocket13 then
    .error (.requestError "Unsupported WebSocket version")
  else if req.key.isNone then
    .error (.requestError "Missing Sec-WebSocket-Key header")
  else
    match req.headers.upgrade with
    | some upgrade =>
      if ¬ upgrade.contains Protocol.webSocket then
        .error (.requestError "Invalid Upgrade WebSocket header")
      else
        match req.headers.connection with
        | some connection =>
          if ¬ connContains connection
              (ConnectionOption.connectionHeader ⟨"Upgrade"⟩) then
            .error (.requestError "Invalid Connection WebSocket header")
          else
            .ok ()
        | none => .error (.requestError "Missing Connection WebSocket header")
    | none => .error (.requestError "Missing Upgrade WebSocket header")

/-- The outbound handshake reply (`server::Response`, not under src/),
modelled from the spec: status code initially unset/pending (`none`)
until accept/fail decides it, an outbound header collection, and the
connection ownership transferred from the `Request`. -/
structure Response (R W : Type) where
  status : Option StatusCode
  headers : Headers
  reader : R
  writer : W
deriving DecidableEq, Repr

/-- Modelled from the spec: `Response::new` (not under src/) constructs
a response bound to the same connection with the status still pending;
the constructor populates the outbound headers with the upgrade tokens
of the handshake reply, which the `fail` path then overrides. -/
def Response.new (req : Request R W) : Response R W :=
  { status := none,
    headers := { Headers.new with
      upgrade := some [Protocol.webSocket],
      connection := some [ConnectionOption.connectionHeader ⟨"Upgrade"⟩] },
    reader := req.reader,
    writer := req.writer }

/-- Fail this request by generating a Bad Request response
(`Request::fail`): build the generic response, then force the status to
400 and reset the headers to the empty collection. -/
def Request.fail (req : Request R W) : Response R W :=
  let response := Response.new req
  { response with status := some StatusCode.badRequest, headers := Headers.new }

/-- Accept this request (`Request::accept`): run `validate`; on any
validation error fall through to `fail`, otherwise build the ordinary
response. -/
def Request.accept (req : Request R W) : Response R W :=
  match req.validate with
  | .ok _ => Response.new req
  | .error _ => req.fail

/-- Modelled from the spec: the one-value raw-header parser (hyper
`from_one_raw_str`, not under src/) succeeds only if the sequence of
raw occurrences contains exactly one element, which is decoded as text;
zero or multiple occurrences yield no value.  Occurrences are carried
as already-decoded strings. -/
def from_one_raw_str (raw : List String) : Option String :=
  match raw with
  | [s] => some s
  | _ => none

/-- Parse an `Origin` header from its raw occurrences
(`Origin::parse_header`). -/
def Origin.parse_header (raw : List String) : Option Origin :=
  (from_one_raw_str raw).map (fun s => Origin.mk s)

/-- Format an `Origin` header (`Origin::fmt_header`): writes the
wrapped string verbatim. -/
def Origin.fmt_header (o : Origin) : String :=
  o.val

/-- First validation check of the ordered sequence: reject HTTP/0.9 and
HTTP/1.0, with the error it produces when it fails. -/
def httpVersionCheck (req : Request R W) : Option WebSocketError :=
  if req.version = HttpVersion.http09 ∨ req.version = HttpVersion.http10 then
    some (.requestError "Unsupported request HTTP version")
  else none

/-- Second validation check: the `Sec-WebSocket-Version` header must be
present and equal to protocol version 13. -/
def wsVersionCheck (req : Request R W) : Option WebSocketError :=
  if req.wsVersion ≠ some WebSocketVersion.webSocket13 then
    some (.requestError "Unsupported WebSocket version")
  else none

/-- Third validation check: the `Sec-WebSocket-Key` header must be
present. -/
def keyCheck (req : Request R W) : Option WebSocketError :=
  if req.key.isNone then
    some (.requestError "Missing Sec-WebSocket-Key header")
  else none

/-- Fourth validation check: an `Upgrade` header must be present and its
token set must contain the "websocket" token; absence and a
non-matching token set produce distinct errors. -/
def upgradeCheck (req : Request R W) : Option WebSocketError :=
  match req.headers.upgrade with
  | some upgrade =>
    if ¬ upgrade.contains Protocol.webSocket then
      some (.requestError "Invalid Upgrade WebSocket header")
    else none
  | none => some (.requestError "Missing Upgrade WebSocket header")

/-- Fifth validation check: a `Connection` header must be present and
its token set must contain the token "Upgrade", compared
case-insensitively. -/
def connectionCheck (req : Request R W) : Option WebSocketError :=
  match req.headers.connection with
  | some connection =>
    if ¬ connContains connection
        (ConnectionOption.connectionHeader ⟨"Upgrade"⟩) then
      some (.requestError "Invalid Connection WebSocket header")
    else none
  | none => some (.requestError "Missing Connection WebSocket header")

/-- The five validation checks in their source order. -/
def orderedChecks (req : Request R W) : List (Option WebSocketError) :=
  [httpVersionCheck req, wsVersionCheck req, keyCheck req,
   upgradeCheck req, connectionCheck req]

/-- The error of the earliest failing check, if any check fails. -/
def firstFailure (req : Request R W) : Option WebSocketError :=
  (orderedChecks req).findSome? id

/-- Header collection of a fully valid handshake request: version 13, a
present key, `Upgrade: websocket` and `Connection: Upgrade`. -/
def demoHeaders : Headers :=
  { Headers.new with
    wsVersion := some WebSocketVersion.webSocket13,
    wsKey := some ⟨"dGhlIHNhbXBsZSBub25jZQ=="⟩,
    upgrade := some [Protocol.webSocket],
    connection := some [ConnectionOption.connectionHeader ⟨"Upgrade"⟩] }

/-- A fully valid HTTP/1.1 handshake request over a trivial
connection. -/
def demoRequest : Request Unit Unit :=
  { url := "/chat", version := HttpVersion.http11, headers := demoHeaders,
    reader := (), writer := () }

/-- An invalid request: same connection and URI but an empty header
collection, so every header check fails. -/
def emptyHeaderRequest : Request Unit Unit :=
  { url := "/chat", version := HttpVersion.http11, headers := Headers.new,
    reader := (), writer := () }

/-- Spec-side reading of the `Upgrade` rule of claim C1: an `Upgrade`
header is present and its token set contains the "websocket" token. -/
def upgradeOk (req : Request R W) : Bool :=
  match req.headers.upgrade with
  | some u => u.contains Protocol.webSocket
  | none => false

/-- Spec-side reading of the `Connection` rule of claim C1: a
`Connection` header is present and its token set contains the token
"Upgrade" (case-insensitively). -/
def connectionOk (req : Request R W) : Bool :=
  match req.headers.connection with
  | some c => connContains c (ConnectionOption.connectionHeader ⟨"Upgrade"⟩)
  | none => false

/-- The five conditions of the spec, stated from its words, to be
compared with `Request.validate` from the source. -/
def validHandshake (req : Request R W) : Prop :=
  req.version ≠ HttpVersion.http09 ∧ req.version ≠ HttpVersion.http10
  ∧ req.wsVersion = some WebSocketVersion.webSocket13
  ∧ req.key.isSome = true
  ∧ upgradeOk req = true
  ∧ connectionOk req = true

/-- C1: `validate()` returns success exactly when all five spec
conditions hold (HTTP version at least 1.1, `Sec-WebSocket-Version`
present and equal to 13, `Sec-WebSocket-Key` present, `Upgrade` tokens
containing "websocket", `Connection` tokens containing "Upgrade"); in
particular the fully valid demo request passes `validate()`. -/
theorem validate_ok_iff_spec_conditions :
    (∀ (R W : Type) (req : Request R W),
      req.validate = Except.ok () ↔ validHandshake req)
    ∧ demoRequest.validate = Except.ok () := by
  refine ⟨fun R W req => ?_, by rfl⟩
  unfold Request.validate validHandshake upgradeOk connectionOk
  by_cases h1 : req.version = HttpVersion.http09 ∨ req.version = HttpVersion.http10
  · rcases h1 with h | h <;> simp [h]
  · rw [if_neg h1]
    rw [not_or] at h1
    obtain ⟨h1a, h1b⟩ := h1
    by_cases h2 : req.wsVersion ≠ some WebSocketVersion.webSocket13
    · simp [h2, h1a, h1b]
    · rw [if_neg h2]
      push_neg at h2
      by_cases h3 : req.key.isNone = true
      · rw [if_pos h3]
        rw [Option.isNone_iff_eq_none] at h3
        simp [h3]
      · rw [if_neg h3]
        have h3 : req.key.isSome = true := by
          cases hk : req.key with
          | none => exact absurd (by rw [hk]; rfl) h3
          | some k => rfl
        cases hu : req.headers.upgrade with
        | none => simp [hu]
        | some u =>
          simp only [hu]
          by_cases h4 : u.contains Protocol.webSocket = true
          · rw [if_neg (by simp [h4])]
            cases hc : req.headers.connection with
            | none => simp [hc]
            | some c =>
              simp only [hc]
              by_cases h5 : connContains c
                  (ConnectionOption.connectionHeader ⟨"Upgrade"⟩) = true
              · rw [if_neg (by simp [h5])]
                simp [h1a, h1b, h2, h3, h4, h5]
              · rw [if_pos (by simp [h5])]
                simp [h5]
          · rw [if_pos (by simp [h4])]
            simp [h4]

/-- C2: `validate()` evaluates its checks in the fixed source order
(HTTP version, WebSocket version, key presence, Upgrade header,
Connection header) and short-circuits at the first failure: its result
is exactly the error of the earliest failing check of the ordered check
list, and success when no check fails, so only one failure is ever
surfaced per call. -/
theorem validate_eq_first_failing_check :
    ∀ (R W : Type) (req : Request R W),
      req.validate = (match firstFailure req with
        | some e => Except.error e
        | none => Except.ok ()) := by
  intro R W req
  unfold Request.validate firstFailure orderedChecks httpVersionCheck
    wsVersionCheck keyCheck upgradeCheck connectionCheck
  by_cases h1 : req.version = HttpVersion.http09 ∨ req.version = HttpVersion.http10
  · simp only [if_pos h1, List.findSome?, id]
  · simp only [if_neg h1, List.findSome?, id]
    by_cases h2 : req.wsVersion ≠ some WebSocketVersion.webSocket13
    · simp only [if_pos h2, List.findSome?, id]
    · simp only [if_neg h2, List.findSome?, id]
      by_cases h3 : req.key.isNone = true
      · simp only [if_pos h3, List.findSome?, id]
      · simp only [if_neg h3, List.findSome?, id]
        cases hu : req.headers.upgrade with
        | none => simp only [hu, List.findSome?, id]
        | some u =>
          simp only [hu, List.findSome?, id]
          by_cases h4 : ¬ u.contains Protocol.webSocket = true
          · simp only [if_pos h4, List.findSome?, id]
          · simp only [if_neg h4, List.findSome?, id]
            cases hc : req.headers.connection with
            | none => simp only [hc, List.findSome?, id]
            | some c =>
              simp only [hc, List.findSome?, id]
              by_cases h5 : ¬ connContains c
                  (ConnectionOption.connectionHeader ⟨"Upgrade"⟩) = true
              · simp only [if_pos h5, List.findSome?, id]
              · simp only [if_neg h5, List.findSome?, id]

/-- C3: `accept()` runs `validate` internally; whenever validation
fails, `accept` returns exactly the response `fail` produces (status
400 with an empty header collection), whatever the failing rule and
error were; whenever validation succeeds, `accept` returns the ordinary
response, bound to the same connection, whose status is not 400. -/
theorem accept_uniform_reject_or_pending :
    ∀ (R W : Type) (req : Request R W),
      (∀ e, req.validate = Except.error e →
        req.accept = req.fail
        ∧ (req.accept).status = some StatusCode.badRequest
        ∧ (req.accept).headers = Headers.new)
      ∧ (req.validate = Except.ok () →
        req.accept = Response.new req
        ∧ (req.accept).status ≠ some StatusCode.badRequest
        ∧ (req.accept).reader = req.reader
        ∧ (req.accept).writer = req.writer) := by
  intro R W req
  constructor
  · intro e he
    unfold Request.accept
    rw [he]
    exact ⟨rfl, rfl, rfl⟩
  · intro hok
    unfold Request.accept
    rw [hok]
    refine ⟨rfl, ?_, rfl, rfl⟩
    simp [Response.new]

/-- Witness for C3: the all-checks-failing empty-header request is
rejected by `accept` exactly as by `fail`, and the fully valid demo
request is accepted with a status other than 400. -/
theorem accept_uniform_reject_or_pending_witness :
    emptyHeaderRequest.accept = emptyHeaderRequest.fail
    ∧ (demoRequest.accept).status ≠ some StatusCode.badRequest := by
  constructor
  · exact ((accept_uniform_reject_or_pending Unit Unit emptyHeaderRequest).1
      (WebSocketError.requestError "Unsupported WebSocket version") (by rfl)).1
  · exact ((accept_uniform_reject_or_pending Unit Unit demoRequest).2 (by rfl)).2.1

/-- C4: `fail()` produces, for every request, a response bound to the
same connection with status 400 and the empty header collection, even
though the generic response constructor populates nonempty headers. -/
theorem fail_forces_bad_request_and_empty_headers :
    ∀ (R W : Type) (req : Request R W),
      (req.fail).status = some StatusCode.badRequest
      ∧ (req.fail).headers = Headers.new
      ∧ (req.fail).reader = req.reader
      ∧ (req.fail).writer = req.writer
      ∧ (Response.new req).headers ≠ Headers.new := by
  intro R W req
  refine ⟨rfl, rfl, rfl, rfl, ?_⟩
  simp [Response.new, Headers.new]

/-- C5: `read` rejects any request line whose method is not GET with
the error `RequestError "Request method must be GET"`, and it does so
before the header block is consulted (the result is the same whatever
the header parse outcome); on a GET line with successfully parsed
headers it assembles the request from the parsed URI, version, headers
and the two connection halves. -/
theorem read_method_gate :
    ∀ (R W : Type) (method : Method) (uri : RequestUri)
      (version : HttpVersion) (hr hr2 : WebSocketResult Headers)
      (headers : Headers) (r : R) (w : W),
      (method ≠ Method.get →
        Request.read (Except.ok (method, uri, version)) hr r w
          = Except.error (WebSocketError.requestError "Request method must be GET")
        ∧ Request.read (Except.ok (method, uri, version)) hr r w
          = Request.read (Except.ok (method, uri, version)) hr2 r w)
      ∧ Request.read (Except.ok (Method.get, uri, version))
          (Except.ok headers) r w
        = Except.ok { url := uri, version := version, headers := headers,
                      reader := r, writer := w } := by
  intro R W method uri version hr hr2 headers r w
  constructor
  · intro hm
    cases method <;> first
      | exact absurd rfl hm
      | exact ⟨rfl, rfl⟩
  · rfl

/-- Witness for C5: a POST request line is rejected with the
method-gate error, independently of a failing header parse. -/
theorem read_method_gate_witness :
    Method.post ≠ Method.get
    ∧ Request.read (Except.ok (Method.post, "/chat", HttpVersion.http11))
        (Except.ok Headers.new) () ()
      = Except.error (WebSocketError.requestError "Request method must be GET") := by
  refine ⟨by decide, ?_⟩
  exact ((read_method_gate Unit Unit Method.post "/chat" HttpVersion.http11
    (Except.ok Headers.new) (Except.error (WebSocketError.ioError "unreadable"))
    Headers.new () ()).1 (by decide)).1

/-- A variant of the valid demo request that differs from it only in
the target URI and in the validation-irrelevant `Origin`,
`Sec-WebSocket-Protocol` and `Sec-WebSocket-Extensions` headers. -/
def demoRequestAlt : Request Unit Unit :=
  { url := "/elsewhere", version := HttpVersion.http11,
    headers := { demoHeaders with
                 origin := some ⟨"http://example.net"⟩,
                 wsProtocol := some ["chat"],
                 wsExtensions := some ["permessage-deflate"] },
    reader := (), writer := () }

/-- Replace the `Connection` header of a request, leaving everything
else unchanged. -/
def setConnection (req : Request R W) (l : List ConnectionOption) : Request R W :=
  { req with headers := { req.headers with connection := some l } }

/-- The lowercase token "upgrade" matches the required `Connection`
token case-insensitively. -/
theorem connContains_lowercase_upgrade :
    connContains [ConnectionOption.connectionHeader ⟨"upgrade"⟩]
      (ConnectionOption.connectionHeader ⟨"Upgrade"⟩) = true := by rfl

/-- The exactly-cased token "Upgrade" matches the required `Connection`
token. -/
theorem connContains_exact_upgrade :
    connContains [ConnectionOption.connectionHeader ⟨"Upgrade"⟩]
      (ConnectionOption.connectionHeader ⟨"Upgrade"⟩) = true := by rfl

/-- C6: the `Connection` check compares tokens case-insensitively: any
two requests differing only in carrying `Connection: upgrade` versus
`Connection: Upgrade` validate identically, and both casings satisfy
the `Connection` rule. -/
theorem validate_connection_case_insensitive :
    ∀ (R W : Type) (req : Request R W),
      (setConnection req [ConnectionOption.connectionHeader ⟨"upgrade"⟩]).validate
        = (setConnection req [ConnectionOption.connectionHeader ⟨"Upgrade"⟩]).validate
      ∧ connContains [ConnectionOption.connectionHeader ⟨"upgrade"⟩]
          (ConnectionOption.connectionHeader ⟨"Upgrade"⟩) = true
      ∧ connContains [ConnectionOption.connectionHeader ⟨"Upgrade"⟩]
          (ConnectionOption.connectionHeader ⟨"Upgrade"⟩) = true := by
  intro R W req
  refine ⟨?_, connContains_lowercase_upgrade, connContains_exact_upgrade⟩
  unfold Request.validate setConnection Request.wsVersion Request.key
  dsimp only
  simp only [connContains_lowercase_upgrade, connContains_exact_upgrade]

/-- C7: `Origin::parse_header` succeeds exactly on a single raw
occurrence, which it wraps verbatim; the empty slice and slices of two
or more occurrences always yield no value. -/
theorem origin_parse_single_occurrence :
    ∀ (raw : List String),
      ((Origin.parse_header raw).isSome = true ↔ raw.length = 1)
      ∧ (∀ s, Origin.parse_header [s] = some ⟨s⟩)
      ∧ Origin.parse_header [] = none
      ∧ ∀ (a b : String) (rest : List String),
          Origin.parse_header (a :: b :: rest) = none := by
  intro raw
  refine ⟨?_, fun s => rfl, rfl, fun a b rest => rfl⟩
  match raw with
  | [] => simp [Origin.parse_header, from_one_raw_str]
  | [s] => simp [Origin.parse_header, from_one_raw_str]
  | a :: b :: rest => simp [Origin.parse_header, from_one_raw_str]

/-- C8: round-trip of the `Origin` header — parsing a single raw
occurrence holding a control-free string and then formatting the
resulting value gives back exactly that string, with no escaping or
normalization. -/
theorem origin_round_trip :
    ∀ (s : String),
      (∀ c ∈ s.data, 31 < c.toNat ∧ c.toNat ≠ 127) →
      Origin.parse_header [s] = some ⟨s⟩
      ∧ Origin.fmt_header ⟨s⟩ = s
      ∧ (Origin.parse_header [s]).map Origin.fmt_header = some s := by
  intro s h
  exact ⟨rfl, rfl, rfl⟩

/-- Witness for C8: the round trip at the concrete control-free origin
string. -/
theorem origin_round_trip_witness :
    (∀ c ∈ "http://example.com".data, 31 < c.toNat ∧ c.toNat ≠ 127)
    ∧ (Origin.parse_header ["http://example.com"]).map Origin.fmt_header
        = some "http://example.com" := by
  refine ⟨by decide, ?_⟩
  exact (origin_round_trip "http://example.com" (by decide)).2.2

/-- C9: `into_inner` consumes the request and returns exactly the
reader and writer halves it holds, producing no response. -/
theorem into_inner_returns_connection_halves :
    ∀ (R W : Type) (req : Request R W),
      req.into_inner = (req.reader, req.writer)
      ∧ req.into_inner.1 = req.reader
      ∧ req.into_inner.2 = req.writer :=
  fun _ _ _ => ⟨rfl, rfl, rfl⟩

/-- C10: the result of `validate()` depends only on the HTTP version
and the `Upgrade`, `Connection`, `Sec-WebSocket-Version` and
`Sec-WebSocket-Key` headers: two requests (even over different
connection types) agreeing on those five inputs validate identically,
whatever their URI, `Origin`, protocol and extension headers, reader
and writer. -/
theorem validate_depends_only_on_five_inputs :
    ∀ (R₁ W₁ R₂ W₂ : Type) (req₁ : Request R₁ W₁) (req₂ : Request R₂ W₂),
      req₁.version = req₂.version →
      req₁.headers.upgrade = req₂.headers.upgrade →
      req₁.headers.connection = req₂.headers.connection →
      req₁.headers.wsVersion = req₂.headers.wsVersion →
      req₁.headers.wsKey = req₂.headers.wsKey →
      req₁.validate = req₂.validate := by
  intro R₁ W₁ R₂ W₂ req₁ req₂ hv hu hc hw hk
  unfold Request.validate Request.wsVersion Request.key
  rw [hv, hu, hc, hw, hk]

/-- Witness for C10: the demo request and a variant differing in URI,
`Origin`, subprotocols and extensions validate identically. -/
theorem validate_five_inputs_witness :
    demoRequest.validate = demoRequestAlt.validate :=
  validate_depends_only_on_five_inputs Unit Unit Unit Unit
    demoRequest demoRequestAlt (by rfl) (by rfl) (by rfl) (by rfl) (by rfl)
